import Mathlib

/-!
Verification of the token-budgeting request path of a two-endpoint LLM relay
backend (src/backend/main.py).  The external tokenizer (tiktoken), the LLM
provider and the TTS provider are external third-party services, out of scope
per the specification; they are modelled as parameters: an `Encoding` record
with a fallible `encode` and a total `decode`, and call oracles mapping the
index of an outbound call to its outcome.  The functions of the repository
itself (`count_tokens`, `truncate_to_max_tokens`, the `/chat/text` and `/tts`
handlers) are translated directly.
-/

set_option maxRecDepth 4000

instance {e a : Type} [DecidableEq e] [DecidableEq a] : DecidableEq (Except e a) := fun x y =>
  match x, y with
  | Except.ok u, Except.ok v =>
    if h : u = v then isTrue (by rw [h]) else isFalse (by intro hc; cases hc; exact h rfl)
  | Except.error u, Except.error v =>
    if h : u = v then isTrue (by rw [h]) else isFalse (by intro hc; cases hc; exact h rfl)
  | Except.ok _, Except.error _ => isFalse (by intro hc; cases hc)
  | Except.error _, Except.ok _ => isFalse (by intro hc; cases hc)

/-- Outcome-level model of the external tokenizer object `encoding`:
`encode` may fail (tiktoken may raise, modelled by `Except.error` carrying
the textual description of the exception), `decode` is total. -/
structure Encoding where
  encode : String → Except String (List Nat)
  decode : List Nat → String

/-- The ASCII whitespace characters removed by Python `str.rstrip()`. -/
def pyIsSpace (c : Char) : Bool :=
  c = ' ' || c = '\t' || c = '\n' || c = '\r' || c = '\x0b' || c = '\x0c'

/-- Python `str.rstrip()`: drop trailing whitespace characters. -/
def pyRstrip (s : String) : String :=
  String.mk ((s.data.reverse.dropWhile pyIsSpace).reverse)

/-- `count_tokens` (main.py lines 54-61): token count of `text`, falling back
to `len(text) // 4` when the tokenizer raises.  Note this helper is defined
but never called by the handlers in main.py. -/
def count_tokens (enc : Encoding) (text : String) : Nat :=
  match enc.encode text with
  | Except.ok tokens => tokens.length
  | Except.error _ => text.length / 4

/-- `truncate_to_max_tokens` (main.py lines 63-78).  The encoding step is not
guarded by a try/except here: a tokenizer failure propagates as the error. -/
def truncate_to_max_tokens (enc : Encoding) (text : String) (max_tokens : Nat) :
    Except String (String × Nat) :=
  match enc.encode text with
  | Except.error e => Except.error e
  | Except.ok tokens =>
    if tokens.length ≤ max_tokens then
      Except.ok (text, tokens.length)
    else
      let truncated_tokens := tokens.take max_tokens
      let truncated_text := enc.decode truncated_tokens
      let final_text :=
        if truncated_text ≠ "" then pyRstrip truncated_text ++ "..." else truncated_text
      Except.ok (final_text, max_tokens)

/-- `MAX_OUTPUT_TOKENS = 150` (main.py line 45). -/
def MAX_OUTPUT_TOKENS : Nat := 150

/-- Body of the `/chat/text` success payload (main.py lines 122-127). -/
structure ChatResponse where
  response : String
  tokens_used : Nat
  max_tokens : Nat
  truncated : Bool
deriving Repr, DecidableEq

/-- `HTTPException(status_code, detail)` as raised by both handlers. -/
structure HTTPError where
  status_code : Nat
  detail : String
deriving Repr, DecidableEq

/-- `/chat/text` handler (main.py lines 103-130).  `generate_content i` is
the outcome of the i-th outbound LLM call the handler would make; the code
makes a single call, so only index 0 is consulted.  Any exception inside the
handler body (a provider error, or a tokenizer error escaping
`truncate_to_max_tokens`) is caught and re-raised as
`HTTPException(500, str(e))`.  The `truncated` flag is computed by comparing
the character length of the original reply with that of the truncated text
(main.py line 118). -/
def chat_text (enc : Encoding) (generate_content : Nat → Except String String) :
    Except HTTPError ChatResponse :=
  match generate_content 0 with
  | Except.error e => Except.error ⟨500, e⟩
  | Except.ok ai_response =>
    match truncate_to_max_tokens enc ai_response MAX_OUTPUT_TOKENS with
    | Except.error e => Except.error ⟨500, e⟩
    | Except.ok (truncated_response, tokens_used) =>
      Except.ok ⟨truncated_response, tokens_used, MAX_OUTPUT_TOKENS,
        ai_response.length != truncated_response.length⟩

/-- The `/tts` success payload: the buffered audio bytes streamed back with a
MIME type (main.py line 144). -/
structure AudioResponse where
  audio : List Nat
  media_type : String
deriving Repr, DecidableEq

/-- `/tts` handler (main.py lines 132-147).  `tts_call i` is the outcome of
the i-th outbound TTS synthesis the handler would make; the code makes a
single call, so only index 0 is consulted.  A provider error is caught and
re-raised as `HTTPException(500, str(e))`. -/
def text_to_speech (tts_call : Nat → Except String (List Nat)) :
    Except HTTPError AudioResponse :=
  match tts_call 0 with
  | Except.error e => Except.error ⟨500, e⟩
  | Except.ok audio_buffer => Except.ok ⟨audio_buffer, "audio/mpeg"⟩

/-- Concrete model instance of the external tokenizer: one token per
character, decode is concatenation.  Used to evaluate the repository
functions on concrete inputs. -/
def charEnc : Encoding :=
  ⟨fun s => Except.ok (s.data.map Char.toNat),
   fun ts => String.mk (ts.map Char.ofNat)⟩

/-- Model tokenizer that raises on the input "FAIL" and otherwise behaves
like `charEnc`; models an input on which `encoding.encode` raises. -/
def brittleEnc : Encoding :=
  ⟨fun s => if s = "FAIL" then Except.error "tokenizer failure"
            else Except.ok (s.data.map Char.toNat),
   fun ts => String.mk (ts.map Char.ofNat)⟩

/-- A 153-character reply; under `charEnc` it has 153 tokens. -/
def longReply : String := String.mk (List.replicate 153 'a')

/-- Helper: on a successful encode with at most `m` tokens,
`truncate_to_max_tokens` takes the identity branch. -/
theorem truncate_le_branch (enc : Encoding) (text : String) (m : Nat) (ts : List Nat)
    (henc : enc.encode text = Except.ok ts) (hle : ts.length ≤ m) :
    truncate_to_max_tokens enc text m = Except.ok (text, ts.length) := by
  simp only [truncate_to_max_tokens, henc]
  rw [if_pos hle]

/-- Helper: the token count returned by `truncate_to_max_tokens` never
exceeds the `max_tokens` argument. -/
theorem truncate_snd_le (enc : Encoding) (text s : String) (m n : Nat)
    (h : truncate_to_max_tokens enc text m = Except.ok (s, n)) : n ≤ m := by
  cases he : enc.encode text with
  | error e =>
    simp only [truncate_to_max_tokens, he] at h
    exact Except.noConfusion h
  | ok ts =>
    simp only [truncate_to_max_tokens, he] at h
    by_cases hle : ts.length ≤ m
    · rw [if_pos hle] at h
      simp only [Except.ok.injEq, Prod.mk.injEq] at h
      omega
    · rw [if_neg hle] at h
      simp only [Except.ok.injEq, Prod.mk.injEq] at h
      omega

/-- C1 counterexample: at `maxTokens = 0` with the non-empty input "a"
(token length 1 > 0) the code returns the empty string with NO "..." marker,
while the claim says the returned string is the trimmed decoding of the first
`maxTokens` tokens with "..." appended (which here would be "...").  The
second group of conjuncts records that when trailing whitespace is trimmed
("a b" at limit 2) the part before the marker is "a", not the decoded
two-token string "a ", so the returned string need not be decodable
from exactly `maxTokens` tokens. -/
theorem C1_counterexample :
    (truncate_to_max_tokens charEnc "a" 0 = Except.ok ("", 0) ∧
      pyRstrip (charEnc.decode (List.take 0 (("a").data.map Char.toNat))) ++ "..." = "..." ∧
      ("" : String) ≠ "...") ∧
    (truncate_to_max_tokens charEnc "a b" 2 = Except.ok ("a...", 2) ∧
      charEnc.decode (List.take 2 (("a b").data.map Char.toNat)) = "a " ∧
      count_tokens charEnc "a" = 1) := by
  decide

/-- C1 (amended): for every input whose token sequence is strictly longer
than `maxTokens`, `truncate_to_max_tokens` returns `maxTokens` as the count
together with the decoding of the first `maxTokens` tokens, trailing
whitespace trimmed and "..." appended when that decoding is non-empty, and
the decoding unchanged (without marker) when it is empty. -/
theorem C1_truncated_branch (enc : Encoding) (text : String) (m : Nat) (ts : List Nat)
    (henc : enc.encode text = Except.ok ts) (hgt : m < ts.length) :
    truncate_to_max_tokens enc text m =
      Except.ok (if enc.decode (ts.take m) ≠ "" then
                   pyRstrip (enc.decode (ts.take m)) ++ "..."
                 else enc.decode (ts.take m), m) := by
  simp only [truncate_to_max_tokens, henc]
  rw [if_neg (Nat.not_le.mpr hgt)]

/-- C1 witness: "a b" has 3 tokens under `charEnc`; at limit 2 the decoded
two-token part is "a ", trimmed to "a", and the marker is appended. -/
theorem C1_witness : truncate_to_max_tokens charEnc "a b" 2 = Except.ok ("a...", 2) := by
  have h := C1_truncated_branch charEnc "a b" 2 (("a b").data.map Char.toNat) rfl (by decide)
  simpa using h

/-- C2 (code bug): the handler decides `truncated` by comparing character
lengths (main.py line 118), not token counts.  A 153-character reply of 153
tokens exceeds `MAX_OUTPUT_TOKENS = 150`, and the truncated-and-marked reply
(150 characters plus "...") also has 153 characters, so the flag comes out
`false` although the token length of the original reply exceeds the limit —
violating the iff invariant the claim states. -/
theorem C2_flag_eval :
    count_tokens charEnc longReply = 153 ∧
    MAX_OUTPUT_TOKENS < count_tokens charEnc longReply ∧
    chat_text charEnc (fun _ => Except.ok longReply) =
      Except.ok ⟨String.mk (List.replicate 150 'a') ++ "...", 150, MAX_OUTPUT_TOKENS, false⟩ := by
  decide

/-- C3 counterexample: on an input where the tokenizer raises, the chat
handler surfaces the tokenizer failure to the caller as an HTTP 500 error —
the fallback in `count_tokens` is never reached on the budgeting path,
refuting "this tokenizer failure is never surfaced to the caller". -/
theorem C3_counterexample :
    chat_text brittleEnc (fun _ => Except.ok "FAIL") =
      Except.error ⟨500, "tokenizer failure"⟩ := by
  decide

/-- C3 (amended): when the tokenizer raises on `text`, `count_tokens` (the
standalone counting helper) catches the failure and falls back to
`len(text) // 4`; but `truncate_to_max_tokens` — the function actually used
on the token-budgeting path — does not guard the encoding step, so the
failure propagates and the chat handler surfaces it as HTTP 500 carrying
the textual description of the error. -/
theorem C3_fallback_count_only (enc : Encoding) (text e : String) (m : Nat)
    (g : Nat → Except String String)
    (henc : enc.encode text = Except.error e) (hg : g 0 = Except.ok text) :
    count_tokens enc text = text.length / 4 ∧
    truncate_to_max_tokens enc text m = Except.error e ∧
    chat_text enc g = Except.error ⟨500, e⟩ := by
  have h1 : count_tokens enc text = text.length / 4 := by
    simp only [count_tokens, henc]
  have h2 : ∀ k, truncate_to_max_tokens enc text k = Except.error e := by
    intro k
    simp only [truncate_to_max_tokens, henc]
  refine ⟨h1, h2 m, ?_⟩
  simp only [chat_text, hg, h2 MAX_OUTPUT_TOKENS]

/-- C3 witness: `brittleEnc` raises exactly on "FAIL"; the counting helper
degrades to the 4-characters-per-token estimate while the budgeting path
propagates the error to a 500. -/
theorem C3_witness :
    count_tokens brittleEnc "FAIL" = 1 ∧
    truncate_to_max_tokens brittleEnc "FAIL" 150 = Except.error "tokenizer failure" ∧
    chat_text brittleEnc (fun _ => Except.ok "FAIL") =
      Except.error ⟨500, "tokenizer failure"⟩ := by
  have h := C3_fallback_count_only brittleEnc "FAIL" "tokenizer failure" 150
    (fun _ => Except.ok "FAIL") (by decide) rfl
  simpa using h

/-- C4: when the token sequence of `text` fits in the budget, the truncation
returns the text unchanged with its exact token count, and (when such a text
is the LLM reply) the handler reports `truncated = false` since the compared
character lengths coincide. -/
theorem C4_within_budget_unchanged (enc : Encoding) (text : String) (m : Nat)
    (ts : List Nat) (g : Nat → Except String String)
    (henc : enc.encode text = Except.ok ts) (hle : ts.length ≤ m)
    (hg : g 0 = Except.ok text) (hmax : ts.length ≤ MAX_OUTPUT_TOKENS) :
    truncate_to_max_tokens enc text m = Except.ok (text, ts.length) ∧
    chat_text enc g = Except.ok ⟨text, ts.length, MAX_OUTPUT_TOKENS, false⟩ := by
  refine ⟨truncate_le_branch enc text m ts henc hle, ?_⟩
  simp only [chat_text, hg, truncate_le_branch enc text MAX_OUTPUT_TOKENS ts henc hmax]
  simp

/-- C4 witness: "hi" has 2 tokens under `charEnc`, within both the budget 5
and the handler budget 150. -/
theorem C4_witness :
    truncate_to_max_tokens charEnc "hi" 5 = Except.ok ("hi", 2) ∧
    chat_text charEnc (fun _ => Except.ok "hi") =
      Except.ok ⟨"hi", 2, MAX_OUTPUT_TOKENS, false⟩ := by
  have h := C4_within_budget_unchanged charEnc "hi" 5 (("hi").data.map Char.toNat)
    (fun _ => Except.ok "hi") rfl (by decide) rfl (by decide)
  simpa using h

/-- C5: any successful `ChatReply` reports `tokens_used ≤ max_tokens`, and
in general the count returned as second component of
`truncate_to_max_tokens` never exceeds its `max_tokens` argument. -/
theorem C5_budget_respected (enc : Encoding) (g : Nat → Except String String)
    (r : ChatResponse) (text s : String) (m n : Nat)
    (hr : chat_text enc g = Except.ok r)
    (ht : truncate_to_max_tokens enc text m = Except.ok (s, n)) :
    r.tokens_used ≤ r.max_tokens ∧ n ≤ m := by
  refine ⟨?_, truncate_snd_le enc text s m n ht⟩
  cases hg : g 0 with
  | error e =>
    simp only [chat_text, hg] at hr
    exact Except.noConfusion hr
  | ok ai =>
    cases ht2 : truncate_to_max_tokens enc ai MAX_OUTPUT_TOKENS with
    | error e =>
      simp only [chat_text, hg, ht2] at hr
      exact Except.noConfusion hr
    | ok p =>
      obtain ⟨s2, n2⟩ := p
      simp only [chat_text, hg, ht2] at hr
      injection hr with h
      subst h
      exact truncate_snd_le enc ai s2 MAX_OUTPUT_TOKENS n2 ht2

/-- C5 witness: a concrete successful reply reporting 2 of 150 tokens, and a
concrete truncation call bounded by its limit 5. -/
theorem C5_witness :
    (ChatResponse.mk "hi" 2 150 false).tokens_used ≤
      (ChatResponse.mk "hi" 2 150 false).max_tokens ∧ (2 : Nat) ≤ 5 :=
  C5_budget_respected charEnc (fun _ => Except.ok "hi") ⟨"hi", 2, 150, false⟩
    "hi" "hi" 5 2 (by decide) (by decide)

/-- C6: truncating a string whose token length is within the budget returns
it unchanged (in particular a previously truncated-and-marked output whose
token length is now within the budget gains no second ellipsis). -/
theorem C6_idempotent (enc : Encoding) (text s : String) (m n : Nat) (ts : List Nat)
    (_hfirst : truncate_to_max_tokens enc text m = Except.ok (s, n))
    (henc : enc.encode s = Except.ok ts) (hle : ts.length ≤ m) :
    truncate_to_max_tokens enc s m = Except.ok (s, ts.length) :=
  truncate_le_branch enc s m ts henc hle

/-- C6 witness: re-truncating the output "ab" of a previous truncation call
with the same limit 5 leaves it unchanged. -/
theorem C6_witness : truncate_to_max_tokens charEnc "ab" 5 = Except.ok ("ab", 2) := by
  have h := C6_idempotent charEnc "ab" "ab" 5 2 (("ab").data.map Char.toNat)
    (by decide) rfl (by decide)
  simpa using h

/-- C7: the empty input encodes to the empty token sequence, so the
truncation returns `("", 0)` and the handler reports `truncated = false`. -/
theorem C7_empty_input (enc : Encoding) (m : Nat) (g : Nat → Except String String)
    (henc : enc.encode "" = Except.ok []) (hg : g 0 = Except.ok "") :
    truncate_to_max_tokens enc "" m = Except.ok ("", 0) ∧
    chat_text enc g = Except.ok ⟨"", 0, MAX_OUTPUT_TOKENS, false⟩ := by
  have h : ∀ k, truncate_to_max_tokens enc "" k = Except.ok ("", 0) := by
    intro k
    have h0 := truncate_le_branch enc "" k [] henc (Nat.zero_le k)
    simpa using h0
  refine ⟨h m, ?_⟩
  simp only [chat_text, hg, h MAX_OUTPUT_TOKENS]
  simp

/-- C7 witness: the empty reply at budget 7 and through the handler. -/
theorem C7_witness :
    truncate_to_max_tokens charEnc "" 7 = Except.ok ("", 0) ∧
    chat_text charEnc (fun _ => Except.ok "") =
      Except.ok ⟨"", 0, MAX_OUTPUT_TOKENS, false⟩ :=
  C7_empty_input charEnc 7 (fun _ => Except.ok "") (by decide) rfl

/-- C8: when the outbound provider call of either handler fails, the handler
converts the failure into an HTTP 500 whose detail is the textual
description of the error, and the handler result depends only on the outcome of the
first outbound call (no retry is ever consulted). -/
theorem C8_provider_error_500 (enc : Encoding)
    (g : Nat → Except String String) (tts_call : Nat → Except String (List Nat))
    (e1 e2 : String) (hg : g 0 = Except.error e1) (ht : tts_call 0 = Except.error e2) :
    chat_text enc g = Except.error ⟨500, e1⟩ ∧
    text_to_speech tts_call = Except.error ⟨500, e2⟩ ∧
    (∀ g2 : Nat → Except String String, g2 0 = g 0 →
      chat_text enc g2 = chat_text enc g) ∧
    (∀ t2 : Nat → Except String (List Nat), t2 0 = tts_call 0 →
      text_to_speech t2 = text_to_speech tts_call) := by
  refine ⟨?_, ?_, ?_, ?_⟩
  · simp only [chat_text, hg]
  · simp only [text_to_speech, ht]
  · intro g2 h2
    simp only [chat_text, h2]
  · intro t2 h2
    simp only [text_to_speech, h2]

/-- C8 witness: concrete failing providers yield the 500 errors, and
oracles that differ only after the first call give identical results. -/
theorem C8_witness :
    chat_text charEnc (fun _ => Except.error "boom") = Except.error ⟨500, "boom"⟩ ∧
    text_to_speech (fun _ => Except.error "tts down") = Except.error ⟨500, "tts down"⟩ ∧
    chat_text charEnc (fun n => if n = 0 then Except.error "boom" else Except.ok "later") =
      chat_text charEnc (fun _ => Except.error "boom") ∧
    text_to_speech (fun n => if n = 0 then Except.error "tts down" else Except.ok []) =
      text_to_speech (fun _ => Except.error "tts down") := by
  obtain ⟨h1, h2, h3, h4⟩ := C8_provider_error_500 charEnc (fun _ => Except.error "boom")
    (fun _ => Except.error "tts down") "boom" "tts down" rfl rfl
  exact ⟨h1, h2, h3 _ rfl, h4 _ rfl⟩

/-- C9: in the truncated branch the reported count is `maxTokens` but the
returned string is not re-encoded: "aaa" truncated to 1 token yields "a..."
whose token length under the model encoding is 4, exceeding the reported 1. -/
theorem C9_reported_count_mismatch :
    truncate_to_max_tokens charEnc "aaa" 1 = Except.ok ("a...", 1) ∧
    count_tokens charEnc "a..." = 4 ∧
    1 < count_tokens charEnc "a..." := by
  decide

/-- C10: in the truncated branch, if the decoded first `maxTokens` tokens
form the empty string the code returns `("", maxTokens)` without the "..."
marker; the marker (with trailing-whitespace trimming) is appended exactly
when the decoded part is non-empty. -/
theorem C10_marker_only_when_nonempty (enc : Encoding) (text : String) (m : Nat)
    (ts : List Nat) (henc : enc.encode text = Except.ok ts) (hgt : m < ts.length) :
    (enc.decode (ts.take m) = "" →
      truncate_to_max_tokens enc text m = Except.ok ("", m)) ∧
    (enc.decode (ts.take m) ≠ "" →
      truncate_to_max_tokens enc text m =
        Except.ok (pyRstrip (enc.decode (ts.take m)) ++ "...", m)) := by
  constructor
  · intro hd
    simp only [truncate_to_max_tokens, henc]
    rw [if_neg (Nat.not_le.mpr hgt)]
    simp [hd]
  · intro hd
    simp only [truncate_to_max_tokens, henc]
    rw [if_neg (Nat.not_le.mpr hgt)]
    simp [hd]

/-- C10 witness: "a" at limit 0 gives the empty string with no marker;
"ab" at limit 1 has non-empty decoded part "a" and gains the marker. -/
theorem C10_witness :
    truncate_to_max_tokens charEnc "a" 0 = Except.ok ("", 0) ∧
    truncate_to_max_tokens charEnc "ab" 1 = Except.ok ("a...", 1) := by
  refine ⟨(C10_marker_only_when_nonempty charEnc "a" 0 (("a").data.map Char.toNat)
    rfl (by decide)).1 (by decide), ?_⟩
  have h := (C10_marker_only_when_nonempty charEnc "ab" 1 (("ab").data.map Char.toNat)
    rfl (by decide)).2 (by decide)
  simpa using h
